import Mathlib

/-!
Shallow embedding of the pagination and optimistic-concurrency (etag) core of
the `aiodal.web` package (`paginator.py`, `version.py`, `controllers.py`).

Python strings are modelled as `List Char`, Python integers as `Int`, and a
raised exception as the `error` side of `Except PyErr`.  Each definition mirrors
the corresponding Python function line by line.
-/

/-- Python string. -/
abbrev PyStr := List Char

/-- The Python exceptions that the embedded code can raise.  `httpException`
carries the status code and the detail message of a `fastapi.HTTPException`. -/
inductive PyErr where
  | valueError
  | keyError
  | indexError
  | attributeError
  | assertionError (msg : PyStr)
  | multipleResultsFound
  | httpException (statusCode : Nat) (detail : PyStr)
deriving DecidableEq, Repr

instance {ε α : Type} [DecidableEq ε] [DecidableEq α] : DecidableEq (Except ε α) := fun x y =>
  match x, y with
  | .ok a, .ok b => decidable_of_iff (a = b) (by simp)
  | .error a, .error b => decidable_of_iff (a = b) (by simp)
  | .ok _, .error _ => .isFalse (fun hh => by cases hh)
  | .error _, .ok _ => .isFalse (fun hh => by cases hh)

/-- Index of the first occurrence of `pat` in `s`, or `none` (Python
`str.find` semantics; the empty pattern occurs at index 0). -/
def strFind? (s pat : PyStr) : Option Nat :=
  if pat.isPrefixOf s then some 0
  else
    match s with
    | [] => none
    | _ :: t => (strFind? t pat).map (· + 1)

/-- Python substring membership `pat in s`. -/
def strContains (s pat : PyStr) : Bool :=
  (strFind? s pat).isSome

/-- Python `s.index(pat)`: like `find` but raises `ValueError` when absent. -/
def pyStrIndex (s pat : PyStr) : Except PyErr Nat :=
  match strFind? s pat with
  | some i => .ok i
  | none => .error .valueError

/-- Python `str(i)` for an `int`. -/
def intRepr (i : Int) : PyStr :=
  match i with
  | Int.ofNat n => Nat.toDigits 10 n
  | Int.negSucc n => '-' :: Nat.toDigits 10 (n + 1)

/-- Fuel-driven worker for `pyReplace`; each step consumes at least one
character of `s` when `old` is nonempty, so `s.length + 1` fuel suffices. -/
def pyReplaceFuel : Nat → PyStr → PyStr → PyStr → PyStr
  | 0, s, _, _ => s
  | _ + 1, [], old, new => if old.isEmpty then new else []
  | fuel + 1, c :: t, old, new =>
    if old.isEmpty then new ++ c :: pyReplaceFuel fuel t old new
    else if old.isPrefixOf (c :: t) then
      new ++ pyReplaceFuel fuel ((c :: t).drop old.length) old new
    else c :: pyReplaceFuel fuel t old new

/-- Python `s.replace(old, new)`: replace every non-overlapping occurrence of
`old` in `s`, scanning left to right. -/
def pyReplace (s old new : PyStr) : PyStr :=
  pyReplaceFuel (s.length + 1) s old new

namespace paginator

/-- Embedding of `paginator._default_paginator` (the spec's
`compute_next_url`).  Returns `Except.error` exactly where the Python code
raises; `str.index` on an absent `next_url_start` raises `ValueError`. -/
def _default_paginator (request_url : PyStr) (offset limit current_len total_count : Int)
    (next_url_start : Option PyStr := none) : Except PyErr (Option PyStr) :=
  if total_count < 1 then .ok none
  else
    let remainder := total_count - current_len - offset
    if remainder > 0 then do
      let idx ←
        match next_url_start with
        | some a =>
          if a.isEmpty then pure 0 else pyStrIndex request_url a
        | none => pure 0
      if !strContains request_url ("offset".data) then
        let off_lim :=
          if strContains request_url ("?".data) then
            if strContains request_url ("limit".data) then
              "&offset=".data ++ intRepr (offset + limit)
            else
              "&offset=".data ++ intRepr (offset + limit) ++ "&limit=".data ++ intRepr limit
          else
            if strContains request_url ("limit".data) then
              "?offset=".data ++ intRepr (offset + limit)
            else
              "?offset=".data ++ intRepr (offset + limit) ++ "&limit=".data ++ intRepr limit
        .ok (some (request_url.drop idx ++ off_lim))
      else
        .ok (some (pyReplace (request_url.drop idx)
          ("offset=".data ++ intRepr offset)
          ("offset=".data ++ intRepr (offset + limit))))
    else .ok none

/-- A record of a result page: a Python mapping, of which only the integer
values matter here. -/
abbrev PyDict := List (PyStr × Int)

/-- Embedding of `paginator.NextPageInfo`. -/
structure NextPageInfo where
  total_count : Int
  next_url : Option PyStr
deriving DecidableEq, Repr

/-- Embedding of `paginator._get_total_count`: `results[0]["total_count"]`.
Subscripting an empty list raises `IndexError`; a missing key raises
`KeyError`. -/
def _get_total_count (results : List PyDict) : Except PyErr Int :=
  match results with
  | [] => .error .indexError
  | r :: _ =>
    match List.lookup ("total_count".data) r with
    | some v => .ok v
    | none => .error .keyError

/-- Embedding of `paginator.get` (the spec's `assemble`, minus re-emitting the
records). -/
def get (results : List PyDict) (request_url : PyStr) (offset limit : Int)
    (url_start_index : PyStr := "/v1".data) : Except PyErr NextPageInfo := do
  let current_len := results.length
  if current_len = 0 then
    .ok { total_count := 0, next_url := none }
  else do
    let total_count ← _get_total_count results
    let next_url ←
      _default_paginator request_url offset limit (current_len : Int) total_count
        (some url_start_index)
    .ok { total_count := total_count, next_url := next_url }

end paginator

/-- A dynamic attribute value on a `sa.Row`; the embedded code only ever meets
booleans (soft-delete flags) and strings (etag versions). -/
inductive AttrVal where
  | b (v : Bool)
  | s (v : PyStr)
deriving DecidableEq, Repr

/-- A database row as seen through dynamic attribute access: an association
list from attribute name to value. -/
abbrev Row := List (PyStr × AttrVal)

/-- Python `hasattr(obj, name)`. -/
def hasattrRow (obj : Row) (name : PyStr) : Bool :=
  (List.lookup name obj).isSome

/-- Python `getattr(obj, name)`: raises `AttributeError` when absent. -/
def getattrRow (obj : Row) (name : PyStr) : Except PyErr AttrVal :=
  match List.lookup name obj with
  | some v => .ok v
  | none => .error .attributeError

/-- Python truthiness of an attribute value. -/
def truthy : AttrVal → Bool
  | .b v => v
  | .s v => !v.isEmpty

namespace SoftDeleteHandler

/-- Embedding of `SoftDeleteHandler.status`: assert the configured field
exists, then raise 410 when its value is truthy. -/
def status (soft_delete_field : PyStr) (obj : Row) : Except PyErr Unit :=
  if hasattrRow obj soft_delete_field then do
    let v ← getattrRow obj soft_delete_field
    if truthy v then .error (.httpException 410 ("Gone.".data)) else .ok ()
  else .error (.assertionError ("No soft delete field".data))

end SoftDeleteHandler

/-- Embedding of the `EtagHandler` instance state: the configured field name,
the freshly generated `new_etag`, and the `current_etag` slot (initially
`None`). -/
structure EtagHandler where
  etag_version_field : PyStr
  new_etag : PyStr
  current_etag : Option AttrVal := none
deriving DecidableEq, Repr

namespace EtagHandler

/-- Embedding of `EtagHandler.set_current_etag`.  The request headers are
modelled by their only consulted entry: `ifMatch` is the value of the
`If-Match` header when present.  The Python method mutates
`self.current_etag`; here the updated handler is returned.  Note the assert is
on the configured `etag_version_field`, while the comparison and the
assignment read the literal attribute `etag_version`, exactly as in the
source. -/
def set_current_etag (h : EtagHandler) (ifMatch : Option PyStr) (obj : Row) :
    Except PyErr EtagHandler :=
  if hasattrRow obj h.etag_version_field then
    match ifMatch with
    | none => .error (.httpException 428 ("Update requires If-Match header.".data))
    | some m => do
      let v ← getattrRow obj ("etag_version".data)
      if v ≠ AttrVal.s m then .error (.httpException 412 ("Precondition Failed.".data))
      else .ok { h with current_etag := some v }
  else .error (.assertionError ("No etag version".data))

end EtagHandler

/-- Python `rows.one_or_none()` over the list of rows an `execute` returned. -/
def one_or_none : List Row → Except PyErr (Option Row)
  | [] => .ok none
  | [r] => .ok (some r)
  | _ => .error .multipleResultsFound

/-- The request-context fields `DetailController.query` consults: the
`If-Match` header entry and the optional handlers carried by the context. -/
structure Ctx where
  ifMatch : Option PyStr := none
  soft_delete_handler : Option PyStr := none
  etag : Option EtagHandler := none

namespace DetailController

/-- Embedding of `DetailController.query` from the point where the statement
has been executed: `perm` is the outcome of the optional permission check,
`rows` the rows the select returned (`res.one_or_none()` is applied to them
here, as in the source).  `if not result` in Python is true for `None` and
for an empty row. -/
def query (perm : Option (Except PyErr Unit)) (ctx : Ctx) (rows : List Row) :
    Except PyErr Row := do
  match perm with
  | some p => p
  | none => pure ()
  let result? ← one_or_none rows
  match result? with
  | none => .error (.httpException 404 ("Not Found.".data))
  | some result =>
    if result.isEmpty then .error (.httpException 404 ("Not Found.".data))
    else do
      match ctx.soft_delete_handler with
      | some f => SoftDeleteHandler.status f result
      | none => pure ()
      match ctx.etag with
      | some h => do
        let _ ← h.set_current_etag ctx.ifMatch result
        pure ()
      | none => pure ()
      .ok result

end DetailController

/-- Outcome of `transaction.execute` for a mutation statement: either the
returned rows, or one of the two caught exception classes (`DBAPIError`
carrying `str(err.orig)`). -/
inductive ExecOutcome where
  | success (rows : List Row)
  | integrityError
  | dbapiError (orig : PyStr)
deriving DecidableEq, Repr

/-- Python `s.split(sep)[-1]` for a single-character separator. -/
def lastSplitPiece (sep : Char) (s : PyStr) : PyStr :=
  (List.splitOn sep s).getLastD []

namespace UpdateController

/-- Embedding of `UpdateController.update` from the point where the update
statement is issued: `perm` is the outcome of the optional permission check
and `exec` the storage outcome of `transaction.execute`. -/
def update (perm : Option (Except PyErr Unit)) (exec : ExecOutcome) :
    Except PyErr Row := do
  match perm with
  | some p => p
  | none => pure ()
  match exec with
  | .integrityError => .error (.httpException 409 ("Conflict.".data))
  | .dbapiError orig =>
    .error (.httpException 409 ("Conflict. ".data ++ lastSplitPiece ':' orig))
  | .success rows =>
    match ← one_or_none rows with
    | none => .error (.httpException 409 ("Stale Data.".data))
    | some result =>
      if result.isEmpty then .error (.httpException 409 ("Stale Data.".data))
      else .ok result

end UpdateController

/-- Modelled from the spec: the storage collaborator's atomic conditional
mutation, `UPDATE ... SET etag_version = :new WHERE ... AND etag_version =
:observed RETURNING ...`.  The database engine that serialises row writes and
guarantees the atomic conditional write is external to the repository; the
spec's boundary contract says it "atomically applies the update ... only if
the stored tag still matches, returning an affected-row indicator (0 or 1)".
Given the stored tag, the observed tag and the fresh tag to write, it returns
the list of returned rows (length = affected-row count) and the new stored
tag. -/
def condWrite (stored observed newTag : PyStr) : List Row × PyStr :=
  if stored = observed then ([[(("etag_version".data : PyStr), AttrVal.s newTag)]], newTag)
  else ([], stored)


/-! Shared evaluation lemmas for the `Except` monad and for the embedded
functions; the claim theorems below build on them. -/

theorem except_bind_ok {ε α β : Type} (a : α) (f : α → Except ε β) :
    (Except.ok a >>= f : Except ε β) = f a := rfl

theorem except_pure_bind {ε α β : Type} (a : α) (f : α → Except ε β) :
    (pure a >>= f : Except ε β) = f a := rfl

theorem except_error_bind {ε α β : Type} (e : ε) (f : α → Except ε β) :
    (Except.error e >>= f : Except ε β) = .error e := rfl

theorem _get_total_count_cons (r : paginator.PyDict) (rs : List paginator.PyDict) :
    paginator._get_total_count (r :: rs) =
      match List.lookup ("total_count".data) r with
      | some v => Except.ok v
      | none => Except.error PyErr.keyError := rfl

theorem get_cons_eval (r : paginator.PyDict) (rs : List paginator.PyDict) (url : PyStr)
    (offset limit : Int) (anchor : PyStr) :
    paginator.get (r :: rs) url offset limit anchor =
      (paginator._get_total_count (r :: rs) >>= fun total_count =>
        paginator._default_paginator url offset limit (((r :: rs).length : Nat) : Int) total_count
          (some anchor) >>= fun next_url =>
        Except.ok { total_count := total_count, next_url := next_url }) := rfl

theorem update_success_eval (rows : List Row) :
    UpdateController.update none (ExecOutcome.success rows) =
      (one_or_none rows >>= fun result? =>
        match result? with
        | none => Except.error (PyErr.httpException 409 ("Stale Data.".data))
        | some result =>
          if result.isEmpty then Except.error (PyErr.httpException 409 ("Stale Data.".data))
          else Except.ok result) := rfl

theorem query_sdh_error (ifm : Option PyStr) (sf : PyStr) (etag : Option EtagHandler)
    (row : Row) (hrow : row ≠ []) (e : PyErr)
    (hst : SoftDeleteHandler.status sf row = .error e) :
    DetailController.query none ⟨ifm, some sf, etag⟩ [row] = .error e := by
  cases row with
  | nil => exact absurd rfl hrow
  | cons a tl =>
    cases etag with
    | none =>
      have hq : DetailController.query none ⟨ifm, some sf, none⟩ [a :: tl]
          = (SoftDeleteHandler.status sf (a :: tl) >>= fun _ => Except.ok (a :: tl)) := rfl
      rw [hq, hst]
      rfl
    | some h =>
      have hq : DetailController.query none ⟨ifm, some sf, some h⟩ [a :: tl]
          = (SoftDeleteHandler.status sf (a :: tl) >>= fun _ =>
              h.set_current_etag ifm (a :: tl) >>= fun _ => Except.ok (a :: tl)) := rfl
      rw [hq, hst]
      rfl

/-! Claim theorems. -/

/-- C6: for every request URL, every anchor, and all offset, limit,
current_len, total_count, if `total_count < 1` or
`total_count - current_len - offset ≤ 0`, then `_default_paginator` returns
`None` (and in particular does not raise). -/
theorem C6_theorem (request_url : PyStr) (anchor : Option PyStr)
    (offset limit current_len total_count : Int)
    (h : total_count < 1 ∨ total_count - current_len - offset ≤ 0) :
    paginator._default_paginator request_url offset limit current_len total_count anchor
      = .ok none := by
  unfold paginator._default_paginator
  rcases h with h | h
  · simp [h]
  · have h1 : ¬ total_count - current_len - offset > 0 := by omega
    by_cases h2 : total_count < 1 <;> simp [h1, h2]

/-- C6 witness: at a concrete exhausted page (offset 100, limit 100,
current_len 100, total_count 200) the result is `None`, even though the anchor
does not occur in the URL. -/
theorem C6_witness :
    paginator._default_paginator ("http://x".data) 100 100 100 200 (some ("/v1".data))
      = .ok none :=
  C6_theorem _ _ 100 100 100 200 (Or.inr (by norm_num))

/-- C1 counterexample: for the URL `http://x?limit=5` (which contains
`limit` but not `offset`) with offset 0, limit 5, current_len 5,
total_count 20, a next page exists and the appended query block is exactly
`&offset=5`, which does not contain `limit=5`; so the appended block does not
include both `offset={offset+limit}` and `limit={limit}` as the claim
states. -/
theorem C1_counterexample :
    paginator._default_paginator ("http://x?limit=5".data) 0 5 5 20 none
      = .ok (some ("http://x?limit=5&offset=5".data))
    ∧ strContains ("&offset=5".data) ("limit=5".data) = false :=
  ⟨by decide, by decide⟩

/-- C1 amended: when the substring `offset` is absent from the request URL
(the code tests `offset`, not `offset=`) and a next page exists, the result
appends to the URL a block introduced by `&` when the URL contains `?` and by
`?` otherwise; the block always carries `offset={offset+limit}`, and carries
`limit={limit}` exactly when the substring `limit` is absent from the URL. -/
theorem C1_theorem (request_url : PyStr) (offset limit current_len total_count : Int)
    (hoff : strContains request_url ("offset".data) = false)
    (h1 : 1 ≤ total_count) (h2 : 0 < total_count - current_len - offset) :
    paginator._default_paginator request_url offset limit current_len total_count none
      = .ok (some (request_url ++
          (if strContains request_url ("?".data) then "&offset=".data else "?offset=".data)
          ++ intRepr (offset + limit)
          ++ (if strContains request_url ("limit".data) then []
              else "&limit=".data ++ intRepr limit))) := by
  unfold paginator._default_paginator
  have hlt : ¬ total_count < 1 := by omega
  simp [hlt, h2, hoff]
  by_cases hq : strContains request_url ("?".data) <;>
    by_cases hl : strContains request_url ("limit".data) <;>
      simp [hq, hl, List.append_assoc]

/-- C1 witness: a URL without `?`, `offset` or `limit` gets
`?offset=7&limit=7` appended. -/
theorem C1_witness :
    paginator._default_paginator ("http://y".data) 0 7 7 20 none
      = .ok (some ("http://y?offset=7&limit=7".data)) := by
  rw [C1_theorem ("http://y".data) 0 7 7 20 (by decide) (by norm_num) (by norm_num)]
  rfl

/-- C3 counterexample: with an anchor (`/v1`) that does not occur in the
request URL and a next page available, `_default_paginator` raises
`ValueError` (from `str.index`) instead of falling back to index 0, so the
function is not raise-free. -/
theorem C3_counterexample :
    paginator._default_paginator ("http://x".data) 0 5 5 20 (some ("/v1".data))
      = .error PyErr.valueError := by decide

/-- C3 amended: `_default_paginator` never raises provided that the anchor,
whenever given and non-empty, occurs in the request URL; under that proviso
the result is always a normal return (`Some` string or `None`).  When a
non-empty anchor is absent from the URL and a next page exists, the call
raises `ValueError` instead (see the counterexample). -/
theorem C3_theorem (request_url : PyStr) (offset limit current_len total_count : Int)
    (anchor : Option PyStr)
    (h : ∀ a, anchor = some a → a.isEmpty = false → strContains request_url a = true) :
    ∃ r, paginator._default_paginator request_url offset limit current_len total_count anchor
        = .ok r := by
  unfold paginator._default_paginator
  by_cases h1 : total_count < 1
  · exact ⟨none, by simp [h1]⟩
  by_cases h2 : total_count - current_len - offset > 0
  · cases anchor with
    | none =>
      cases ho : strContains request_url ("offset".data) <;>
        simp [h1, h2, ho, except_pure_bind]
    | some a =>
      cases he : a.isEmpty with
      | false =>
        have hc := h a rfl he
        unfold strContains at hc
        rw [Option.isSome_iff_exists] at hc
        obtain ⟨i, hi⟩ := hc
        cases ho : strContains request_url ("offset".data) <;>
          simp [h1, h2, he, ho, pyStrIndex, hi, except_bind_ok]
      | true =>
        cases ho : strContains request_url ("offset".data) <;>
          simp [h1, h2, he, ho, except_pure_bind]
  · exact ⟨none, by simp [h1, h2]⟩

/-- C3 witness: with the anchor present in the URL the call returns
normally. -/
theorem C3_witness :
    ∃ r, paginator._default_paginator ("https://mysite.com/v1/book/".data) 0 100 100 200
        (some ("/v1".data)) = .ok r :=
  C3_theorem _ 0 100 100 200 _ (by intro a ha hne; cases ha; decide)

/-- C7 counterexample: a one-record page whose record lacks `total_count`
makes `paginator.get` fail with Python's built-in `KeyError`, not with a
`MissingTotalCountError`: the source defines no such exception class (the
`PyErr` type enumerates every exception the embedded code can raise). -/
theorem C7_counterexample :
    paginator.get [[(("x".data : PyStr), (1 : Int))]] ("http://q/v1".data) 0 5 ("/v1".data)
      = .error PyErr.keyError := by decide

/-- C7 amended: for every non-empty record list, `total_count` is read from
the first record; if that key is absent the call fails fast with a `KeyError`
(there is no `MissingTotalCountError` in the code), and it never defaults the
count: any successful result carries exactly the first record's
`total_count`. -/
theorem C7_theorem :
    (∀ (r : paginator.PyDict) (rs : List paginator.PyDict) (url : PyStr) (offset limit : Int)
        (anchor : PyStr),
        List.lookup ("total_count".data) r = none →
        paginator.get (r :: rs) url offset limit anchor = .error PyErr.keyError)
  ∧ (∀ (r : paginator.PyDict) (rs : List paginator.PyDict) (url : PyStr) (offset limit : Int)
        (anchor : PyStr) (info : paginator.NextPageInfo),
        paginator.get (r :: rs) url offset limit anchor = .ok info →
        List.lookup ("total_count".data) r = some info.total_count) := by
  constructor
  · intro r rs url offset limit anchor hl
    have h0 := _get_total_count_cons r rs
    rw [hl] at h0
    have h1 : paginator._get_total_count (r :: rs) = Except.error PyErr.keyError := h0
    rw [get_cons_eval, h1]
    rfl
  · intro r rs url offset limit anchor info h
    rw [get_cons_eval] at h
    cases hl : List.lookup ("total_count".data) r with
    | none =>
      have h0 := _get_total_count_cons r rs
      rw [hl] at h0
      have h1 : paginator._get_total_count (r :: rs) = Except.error PyErr.keyError := h0
      rw [h1] at h
      cases h
    | some v =>
      have h0 := _get_total_count_cons r rs
      rw [hl] at h0
      have h1 : paginator._get_total_count (r :: rs) = Except.ok v := h0
      rw [h1] at h
      simp only [except_bind_ok] at h
      rcases hres : paginator._default_paginator url offset limit (((r :: rs).length : Nat) : Int)
          v (some anchor) with e | u
      · rw [hres] at h
        cases h
      · rw [hres] at h
        simp only [except_bind_ok] at h
        cases h
        rfl

/-- C7 witness: another record without the `total_count` key fails with
`KeyError`. -/
theorem C7_witness :
    paginator.get [[(("id".data : PyStr), (7 : Int))]] ("http://x/v1".data) 0 5 ("/v1".data)
      = .error PyErr.keyError :=
  C7_theorem.1 _ [] _ 0 5 _ (by decide)

/-- C5: when the tag-guarded update statement reports zero returned rows,
`UpdateController.update` raises 409 with detail `Stale Data.`; when it
reports exactly one (non-empty) row, the update commits and the row is
returned. -/
theorem C5_theorem :
    (UpdateController.update none (ExecOutcome.success [])
        = .error (PyErr.httpException 409 ("Stale Data.".data)))
  ∧ ∀ row : Row, row ≠ [] →
      UpdateController.update none (ExecOutcome.success [row]) = .ok row := by
  constructor
  · rfl
  · intro row hrow
    rw [update_success_eval]
    cases row with
    | nil => exact absurd rfl hrow
    | cons a t => rfl

/-- C5 witness: one concrete returned row commits. -/
theorem C5_witness :
    UpdateController.update none
        (ExecOutcome.success [[(("etag_version".data : PyStr), AttrVal.s ("t2".data))]])
      = .ok [(("etag_version".data : PyStr), AttrVal.s ("t2".data))] :=
  C5_theorem.2 _ (by decide)

/-- C8: two conditional mutations that both observed the stored tag `t` and
run serialised in either order (the first writes the fresh tag `nF`, the
second `nS`): the first affects one row and commits, the second affects zero
rows and is surfaced as 409 `Stale Data.`.  The only assumption is that the
fresh tag differs from the stored one (`nF ≠ t`), which the spec guarantees by
generating tags randomly on every request. -/
theorem C8_theorem (t nF nS : PyStr) (hF : nF ≠ t) :
    (condWrite t t nF).1.length = 1
  ∧ (condWrite (condWrite t t nF).2 t nS).1.length = 0
  ∧ UpdateController.update none (ExecOutcome.success (condWrite t t nF).1)
      = .ok [(("etag_version".data : PyStr), AttrVal.s nF)]
  ∧ UpdateController.update none (ExecOutcome.success (condWrite (condWrite t t nF).2 t nS).1)
      = .error (PyErr.httpException 409 ("Stale Data.".data)) := by
  have h1 : condWrite t t nF = ([[(("etag_version".data : PyStr), AttrVal.s nF)]], nF) := by
    simp [condWrite]
  have h2 : condWrite nF t nS = ([], nF) := by
    simp [condWrite, hF]
  rw [h1, h2]
  exact ⟨rfl, rfl, rfl, rfl⟩

/-- C8 witness: concrete tags `t0`, `t1`, `t2`. -/
theorem C8_witness :
    (condWrite ("t0".data) ("t0".data) ("t1".data)).1.length = 1
  ∧ (condWrite (condWrite ("t0".data) ("t0".data) ("t1".data)).2 ("t0".data) ("t2".data)).1.length
      = 0
  ∧ UpdateController.update none
        (ExecOutcome.success (condWrite ("t0".data) ("t0".data) ("t1".data)).1)
      = .ok [(("etag_version".data : PyStr), AttrVal.s ("t1".data))]
  ∧ UpdateController.update none
        (ExecOutcome.success
          (condWrite (condWrite ("t0".data) ("t0".data) ("t1".data)).2 ("t0".data) ("t2".data)).1)
      = .error (PyErr.httpException 409 ("Stale Data.".data)) :=
  C8_theorem ("t0".data) ("t1".data) ("t2".data) (by decide)

/-- C2 counterexample: a request with no `If-Match` header whose resource row
is not found is answered 404, not 428 — so the header presence check does not
happen before the row fetch, contrary to the claim. -/
theorem C2_counterexample :
    DetailController.query none
        ⟨none, some ("deleted".data), some ⟨"etag_version".data, "new1".data, none⟩⟩ []
      = .error (PyErr.httpException 404 ("Not Found.".data))
    ∧ DetailController.query none
        ⟨none, some ("deleted".data), some ⟨"etag_version".data, "new1".data, none⟩⟩ []
      ≠ .error (PyErr.httpException 428 ("Update requires If-Match header.".data)) :=
  ⟨by decide, by decide⟩

/-- C2 amended: the `If-Match` presence check is the first check of the etag
phase (before the tag comparison), but it runs only after the row has been
fetched: a request lacking the header is answered
428 `Update requires If-Match header.` whenever the row is found, not
soft-deleted and carries the configured etag field; a missing row yields 404
first (see the counterexample). -/
theorem C2_theorem (sf ef ne : PyStr) (ce : Option AttrVal) (row : Row) (v : AttrVal)
    (hsd : List.lookup sf row = some v) (hfalse : truthy v = false)
    (hetag : hasattrRow row ef = true) :
    DetailController.query none ⟨none, some sf, some ⟨ef, ne, ce⟩⟩ [row]
      = .error (PyErr.httpException 428 ("Update requires If-Match header.".data)) := by
  have hne : row ≠ [] := by
    intro he
    subst he
    simp [List.lookup] at hsd
  have hst : SoftDeleteHandler.status sf row = .ok () := by
    unfold SoftDeleteHandler.status hasattrRow getattrRow
    rw [hsd]
    simp [hfalse, except_bind_ok]
  have hset : EtagHandler.set_current_etag ⟨ef, ne, ce⟩ none row
      = .error (PyErr.httpException 428 ("Update requires If-Match header.".data)) := by
    unfold EtagHandler.set_current_etag
    simp [hetag]
  cases row with
  | nil => exact absurd rfl hne
  | cons a tl =>
    have hq : DetailController.query none ⟨none, some sf, some ⟨ef, ne, ce⟩⟩ [a :: tl]
        = (SoftDeleteHandler.status sf (a :: tl) >>= fun _ =>
            EtagHandler.set_current_etag ⟨ef, ne, ce⟩ none (a :: tl) >>= fun _ =>
            Except.ok (a :: tl)) := rfl
    rw [hq, hst, except_bind_ok, hset]
    rfl

/-- C2 witness: a found, not soft-deleted row with the etag field, requested
without `If-Match`, is answered 428. -/
theorem C2_witness :
    DetailController.query none
        ⟨none, some ("deleted".data), some ⟨"etag_version".data, "new2".data, none⟩⟩
        [[(("deleted".data : PyStr), AttrVal.b false),
          (("etag_version".data : PyStr), AttrVal.s ("tagB".data))]]
      = .error (PyErr.httpException 428 ("Update requires If-Match header.".data)) :=
  C2_theorem _ _ _ _ _ (AttrVal.b false) (by decide) (by decide) (by decide)

/-- C4: a fetched row whose configured soft-delete field holds a truthy value
is answered 410 `Gone.` by `DetailController.query`, whatever the `If-Match`
header and the etag handler are — in particular even when the client tag
equals the stored tag (see the witness) — because the soft-delete check runs
before the tag comparison, so no 412 or successful outcome is possible. -/
theorem C4_theorem (ifMatch : Option PyStr) (etag : Option EtagHandler) (sf : PyStr) (row : Row)
    (v : AttrVal) (hv : List.lookup sf row = some v) (ht : truthy v = true) :
    DetailController.query none ⟨ifMatch, some sf, etag⟩ [row]
      = .error (PyErr.httpException 410 ("Gone.".data)) := by
  have hne : row ≠ [] := by
    intro he
    subst he
    simp [List.lookup] at hv
  have hst : SoftDeleteHandler.status sf row = .error (PyErr.httpException 410 ("Gone.".data)) := by
    unfold SoftDeleteHandler.status hasattrRow getattrRow
    rw [hv]
    simp [ht, except_bind_ok]
  exact query_sdh_error ifMatch sf etag row hne _ hst

/-- C4 witness: a soft-deleted row whose stored tag `tagA` equals the
client-sent `If-Match` value still yields 410. -/
theorem C4_witness :
    DetailController.query none
        ⟨some ("tagA".data), some ("deleted".data),
          some ⟨"etag_version".data, "new1".data, none⟩⟩
        [[(("deleted".data : PyStr), AttrVal.b true),
          (("etag_version".data : PyStr), AttrVal.s ("tagA".data))]]
      = .error (PyErr.httpException 410 ("Gone.".data)) :=
  C4_theorem _ _ _ _ (AttrVal.b true) (by decide) (by decide)

/-- C9 counterexample: with field name `version` configured, a row having
`version` but no `etag_version`, and no `If-Match` header, the call is
rejected 428 — not an `AttributeError` as the claim states for every such
row: the header check runs before the literal `etag_version` access. -/
theorem C9_counterexample :
    EtagHandler.set_current_etag ⟨"version".data, "new1".data, none⟩ none
        [(("version".data : PyStr), AttrVal.s ("v1".data))]
      = .error (PyErr.httpException 428 ("Update requires If-Match header.".data))
    ∧ EtagHandler.set_current_etag ⟨"version".data, "new1".data, none⟩ none
        [(("version".data : PyStr), AttrVal.s ("v1".data))]
      ≠ .error PyErr.attributeError :=
  ⟨by decide, by decide⟩

/-- C9 amended: `set_current_etag` asserts the configured field `F` exists but
compares and assigns the literal `etag_version` attribute; hence for a row
having `F` but no `etag_version` attribute, the call fails with
`AttributeError` — instead of 412 or success — whenever the `If-Match` header
is present; when the header is absent the 428 outcome is still produced
first. -/
theorem C9_theorem :
    (∀ (F ne : PyStr) (ce : Option AttrVal) (m : PyStr) (row : Row),
        hasattrRow row F = true →
        List.lookup ("etag_version".data) row = none →
        EtagHandler.set_current_etag ⟨F, ne, ce⟩ (some m) row = .error PyErr.attributeError)
  ∧ (∀ (F ne : PyStr) (ce : Option AttrVal) (row : Row),
        hasattrRow row F = true →
        EtagHandler.set_current_etag ⟨F, ne, ce⟩ none row
          = .error (PyErr.httpException 428 ("Update requires If-Match header.".data))) := by
  constructor
  · intro F ne ce m row hF hno
    unfold EtagHandler.set_current_etag getattrRow
    simp [hF, hno, except_error_bind]
  · intro F ne ce row hF
    unfold EtagHandler.set_current_etag
    simp [hF]

/-- C9 witness: with the header present, the mis-configured field name leads
to `AttributeError`. -/
theorem C9_witness :
    EtagHandler.set_current_etag ⟨"rev".data, "new9".data, none⟩ (some ("tagZ".data))
        [(("rev".data : PyStr), AttrVal.s ("v7".data))]
      = .error PyErr.attributeError :=
  C9_theorem.1 _ _ _ _ _ (by decide) (by decide)

/-- C10: a row lacking the configured field makes `SoftDeleteHandler.status`
and `EtagHandler.set_current_etag` fail with the respective `AssertionError`
before any precondition checking, and conversely every HTTP-status rejection
(410 for the soft-delete handler; 428/412 for the etag handler) is produced
only for rows on which the configured field exists. -/
theorem C10_theorem :
    (∀ (f : PyStr) (row : Row), hasattrRow row f = false →
        SoftDeleteHandler.status f row
          = .error (PyErr.assertionError ("No soft delete field".data)))
  ∧ (∀ (h : EtagHandler) (ifm : Option PyStr) (row : Row),
        hasattrRow row h.etag_version_field = false →
        h.set_current_etag ifm row = .error (PyErr.assertionError ("No etag version".data)))
  ∧ (∀ (f : PyStr) (row : Row) (c : Nat) (d : PyStr),
        SoftDeleteHandler.status f row = .error (PyErr.httpException c d) →
        hasattrRow row f = true)
  ∧ (∀ (h : EtagHandler) (ifm : Option PyStr) (row : Row) (c : Nat) (d : PyStr),
        h.set_current_etag ifm row = .error (PyErr.httpException c d) →
        hasattrRow row h.etag_version_field = true) := by
  refine ⟨?_, ?_, ?_, ?_⟩
  · intro f row hf
    unfold SoftDeleteHandler.status
    simp [hf]
  · intro h ifm row hf
    unfold EtagHandler.set_current_etag
    simp [hf]
  · intro f row c d hres
    cases hf : hasattrRow row f with
    | true => rfl
    | false =>
      unfold SoftDeleteHandler.status at hres
      simp [hf] at hres
  · intro h ifm row c d hres
    cases hf : hasattrRow row h.etag_version_field with
    | true => rfl
    | false =>
      unfold EtagHandler.set_current_etag at hres
      simp [hf] at hres

/-- C10 witness: a row without the configured `deleted` field trips the
assertion. -/
theorem C10_witness :
    SoftDeleteHandler.status ("deleted".data) [(("other".data : PyStr), AttrVal.b false)]
      = .error (PyErr.assertionError ("No soft delete field".data)) :=
  C10_theorem.1 _ _ (by decide)
